import Mathlib

/-!
Shallow embedding of the mental-rotation experiment repository
(`draw_first_stimulus.py`, `experiments/experience_pygame_3d.py`,
`experiments/analyze_ade.py`).

Python dictionaries holding stimulus records are modelled by the `Stimulus`
structure; the `is_mirror` key may be absent, present with value `null`, or
present with a boolean, which the three-valued `MirrorField` captures
(`dict.get` with and without a default distinguishes these cases).
Floating-point session values (rotation accumulators, times, angles) are
modelled by rationals — the program only adds pixel deltas scaled by 0.5, so
the rational model is exact — while the square root in the disparity
computation is modelled over the reals.  External collaborators (the JSON
text codec, scipy's regression) are parameters of the definitions that call
them.
-/

namespace MentalRotation

/-- The state of the `is_mirror` key in a stimulus record: absent from the
dictionary, present with value `null`, or present with a boolean. -/
inductive MirrorField
  | absent
  | null
  | val (b : Bool)
deriving DecidableEq, Repr

/-- Geometry of the `figure_left` / `figure_right` fields of a stimulus record. -/
structure Figure where
  vertices : List (ℚ × ℚ × ℚ)
  edges : List (Nat × Nat)
  faces : List (List Nat)
deriving DecidableEq, Repr

/-- The `rotation` field `{x, y, z}` of a stimulus record. -/
structure RotVec where
  x : ℚ
  y : ℚ
  z : ℚ
deriving DecidableEq, Repr

/-- A stimulus record from `stimuli_data.json`.  `rotation` and `angle` keys
may be absent (the code reads them with `dict.get` defaults). -/
structure Stimulus where
  id : String
  figure_left : Figure
  figure_right : Figure
  rotation : Option RotVec
  angle : Option ℚ
  mirror : MirrorField
deriving DecidableEq, Repr

/-- A default stimulus record, used only to give total versions of Python's
partial list indexing. -/
def dfltStim : Stimulus :=
  { id := "", figure_left := ⟨[], [], []⟩, figure_right := ⟨[], [], []⟩,
    rotation := none, angle := none, mirror := .absent }

/-- Python `record.get("is_mirror")`: `None` when the key is absent or
explicitly `null`, the boolean otherwise. -/
def mirrorGet : MirrorField → Option Bool
  | .absent => none
  | .null => none
  | .val b => some b

/-- Python `record.get` of the `is_mirror` key with default `False`: the
default applies only when the key is absent; an explicit `null` stays `None`. -/
def mirrorGetDfalse : MirrorField → Option Bool
  | .absent => some false
  | .null => none
  | .val b => some b

/-- The y component of the `rotation` field, with the all-zero default the
render loop supplies for an absent key via `stimulus.get`. -/
def stimRotY (s : Stimulus) : ℚ :=
  (s.rotation.map RotVec.y).getD 0

/-! ## StimulusRepository: labeling and persistence (`draw_first_stimulus.py`) -/

/-- Python `all_stimuli[current_index]["is_mirror"] = b` — set the mirror label of
the record at `index`, leaving every other record untouched (out-of-range
indices leave the collection unchanged; the program only uses in-range
indices). -/
def labelStimulus : List Stimulus → Nat → Bool → List Stimulus
  | [], _, _ => []
  | s :: rest, 0, b => { s with mirror := .val b } :: rest
  | s :: rest, k + 1, b => s :: labelStimulus rest k b

/-- Python `data[idx] = v` on the freshly re-read persisted list. -/
def setRecord : List Stimulus → Nat → Stimulus → List Stimulus
  | [], _, _ => []
  | _ :: rest, 0, v => v :: rest
  | s :: rest, k + 1, v => s :: setRecord rest k v

/-- Model of `save_stimulus_to_json`: re-read the persisted collection `disk`, copy the
in-memory record at `idx` into it, and rewrite the whole file.  The value
returned is the full data content written back to disk. -/
def save_stimulus_to_json (disk mem : List Stimulus) (idx : Nat) : List Stimulus :=
  setRecord disk idx (mem.getD idx dfltStim)

/-- The `K_s` / `K_d` labeling action: update the record at `idx` in memory,
then persist via `save_stimulus_to_json`.  Returns (memory, disk-as-written);
`disk` is the persisted collection before the call. -/
def labelAndSave (disk mem : List Stimulus) (idx : Nat) (b : Bool) :
    List Stimulus × List Stimulus :=
  let mem' := labelStimulus mem idx b
  (mem', save_stimulus_to_json disk mem' idx)

/-- The record lines written by `save_stimulus_to_json`: each record is one
compact encoded line, with a trailing comma on all but the last. -/
def writeRecordLines (encode : Stimulus → String) : List Stimulus → List String
  | [] => []
  | [s] => [encode s]
  | s :: s' :: rest => (encode s ++ ",") :: writeRecordLines encode (s' :: rest)

/-- The full file written by `save_stimulus_to_json`, as a list of lines:
an opening bracket line, one compact record per line, a closing bracket. -/
def writeCollectionLines (encode : Stimulus → String) (data : List Stimulus) :
    List String :=
  "[" :: (writeRecordLines encode data ++ ["]"])

/-! ## Loading (`load_stimuli` and `load_all_stimuli`) -/

/-- The environment's answer when the loader opens and parses the stimulus
file: the path may be missing, the content may fail structured parsing, or a
record list is obtained.  File formats themselves are external collaborators. -/
inductive FileState
  | missing
  | malformed
  | parsed (data : List Stimulus)
deriving DecidableEq

/-- The load-failure taxonomy of the spec. -/
inductive LoadError
  | notFound
  | parseError
  | emptyData
deriving DecidableEq, Repr

/-- Model of `load_stimuli` of `experience_pygame_3d.py`: `open` raises on a missing
path, `json.load` raises on malformed content, and the parsed data is
returned as-is — with no emptiness check. -/
def load_stimuli : FileState → Except LoadError (List Stimulus)
  | .missing => .error .notFound
  | .malformed => .error .parseError
  | .parsed d => .ok d

/-- Model of `load_all_stimuli` of `draw_first_stimulus.py`: like `load_stimuli`, but
raises on an empty loaded list (`if not data: raise ValueError(...)`). -/
def load_all_stimuli : FileState → Except LoadError (List Stimulus)
  | .missing => .error .notFound
  | .malformed => .error .parseError
  | .parsed d => if d.isEmpty then .error .emptyData else .ok d

/-! ## TrialSequencer (`generate_trial_set`) -/

/-- A trial dictionary produced by `generate_trial_set`. -/
structure Trial where
  stimulus : Stimulus
  rotation_enabled : Bool
  is_mirror : Option Bool
deriving DecidableEq, Repr

/-- Default trial, for total indexing. -/
def dfltTrial : Trial :=
  { stimulus := dfltStim, rotation_enabled := false, is_mirror := none }

/-- The `for i, stimulus in enumerate(...)` loop body: trial `i` gets
`rotation_enabled = i < n_with_rotation` and freezes
`stimulus.get("is_mirror", False)`. -/
def assignConditions (n_with_rotation : Nat) : Nat → List Stimulus → List Trial
  | _, [] => []
  | i, s :: rest =>
      { stimulus := s, rotation_enabled := decide (i < n_with_rotation),
        is_mirror := mirrorGetDfalse s.mirror } :: assignConditions n_with_rotation (i + 1) rest

/-- Model of `generate_trial_set`: filter to stimuli with a non-`None` `is_mirror`;
if too few, fall back to the first `n` stimuli of the original list; shuffle
(the random permutation is a parameter); truncate and assign conditions. -/
def generate_trial_set (shuffle : List Stimulus → List Stimulus)
    (stimuli : List Stimulus) (n_with_rotation n_without_rotation : Nat) : List Trial :=
  let total := n_with_rotation + n_without_rotation
  let valid := stimuli.filter (fun s => (mirrorGet s.mirror).isSome)
  let pool := if valid.length < total then stimuli.take total else valid
  assignConditions n_with_rotation 0 ((shuffle pool).take total)

/-! ## DisparityCalculator (`calculate_angular_disparity`) -/

/-- Model of `calculate_angular_disparity`: the Euclidean norm of the two accumulated
user rotations; the `initial_angle_y` argument is not used by the body. -/
noncomputable def calculate_angular_disparity (initial_angle_y user_rot_x user_rot_y : ℝ) : ℝ :=
  Real.sqrt (user_rot_x * user_rot_x + user_rot_y * user_rot_y)

/-! ## TrialController: the event loop of `run_experiment_3d` -/

/-- The `TrialResult` dataclass.  `is_mirror` and `is_correct` hold Python
values that can be `None` (see `generate_trial_set`'s fallback path), hence
`Option Bool`. -/
structure TrialResult where
  trial_number : Nat
  stimulus_id : String
  is_mirror : Option Bool
  user_response : Bool
  response_time : ℚ
  is_correct : Option Bool
  rotation_enabled : Bool
  disparity : ℝ
  initial_angle : ℚ

/-- The mutable session state of the event loop. -/
structure ExpState where
  currentTrial : Nat
  results : List TrialResult
  rotX : ℚ
  rotY : ℚ
  dragging : Bool
  lastMousePos : Option (Int × Int)
  startTime : ℚ
  running : Bool

/-- The session state after lines 277-285: trial 0, empty results, both
rotation accumulators zero, no drag, running. -/
def initState (t0 : ℚ) : ExpState :=
  { currentTrial := 0, results := [], rotX := 0, rotY := 0,
    dragging := false, lastMousePos := none, startTime := t0, running := true }

/-- The discrete input events the loop reacts to. -/
inductive GEvent
  | quit
  | keyEscape
  | keyS
  | keyD
  | mouseDown (button : Nat) (pos : Int × Int)
  | mouseUp (button : Nat)
  | mouseMotion (pos : Int × Int)

/-- The `TrialResult` built on an accepted response (`different = true` for
the D key, `false` for the S key).  Python computes
`is_correct = not is_mirror` for "same" (where `not None` is `True`) and
`is_correct = is_mirror` for "different" (which can store `None`). -/
noncomputable def respondResult (trials : List Trial) (now : ℚ) (s : ExpState)
    (different : Bool) : TrialResult :=
  let t := trials.getD s.currentTrial dfltTrial
  { trial_number := s.currentTrial + 1
    stimulus_id := t.stimulus.id
    is_mirror := t.is_mirror
    user_response := different
    response_time := now - s.startTime
    is_correct := if different then t.is_mirror else some (! t.is_mirror.getD false)
    rotation_enabled := t.rotation_enabled
    disparity := calculate_angular_disparity ((stimRotY t.stimulus : ℚ) : ℝ)
      ((s.rotX : ℚ) : ℝ) ((s.rotY : ℚ) : ℝ)
    initial_angle := t.stimulus.angle.getD 0 }

/-- The accepted-response branch (`K_s` / `K_d`): append the result, advance
the trial counter; if the plan is exhausted stop running (the code `break`s
before resetting anything), otherwise zero both accumulators and restart the
trial clock. -/
noncomputable def respondEvent (trials : List Trial) (now : ℚ) (s : ExpState)
    (different : Bool) : ExpState :=
  if trials.length ≤ s.currentTrial + 1 then
    { s with results := s.results ++ [respondResult trials now s different],
             currentTrial := s.currentTrial + 1, running := false }
  else
    { s with results := s.results ++ [respondResult trials now s different],
             currentTrial := s.currentTrial + 1,
             rotX := 0, rotY := 0, startTime := now }

/-- One step of the event dispatch of `run_experiment_3d` (lines 298-387):
`now` is the wall-clock time at which the event is processed. -/
noncomputable def handleEvent (trials : List Trial) (now : ℚ) (s : ExpState) :
    GEvent → ExpState
  | .quit => { s with running := false }
  | .keyEscape => { s with running := false }
  | .keyS => respondEvent trials now s false
  | .keyD => respondEvent trials now s true
  | .mouseDown button pos =>
      if button = 1 ∧ (trials.getD s.currentTrial dfltTrial).rotation_enabled then
        { s with dragging := true, lastMousePos := some pos }
      else s
  | .mouseUp button =>
      if button = 1 then { s with dragging := false } else s
  | .mouseMotion pos =>
      if s.dragging ∧ (trials.getD s.currentTrial dfltTrial).rotation_enabled then
        match s.lastMousePos with
        | some lp =>
            { s with rotY := s.rotY + ((pos.1 - lp.1 : ℤ) : ℚ) * (1 / 2),
                     rotX := s.rotX + ((pos.2 - lp.2 : ℤ) : ℚ) * (1 / 2),
                     lastMousePos := some pos }
        | none => s
      else s

/-! ## ADEAnalyzer (`analyze_ade.py` and `analyze_ade_automatically`) -/

/-- The regression quadruple per partition. -/
structure ADEFit where
  slope : ℚ
  intercept : ℚ
  r : ℚ
  p : ℚ
deriving DecidableEq, Repr

/-- The degenerate fit used for partitions with fewer than two samples. -/
def degenerateFit : ADEFit := { slope := 0, intercept := 0, r := 0, p := 1 }

/-- The per-partition fit: call the external regression (scipy `linregress` /
`pearsonr`, a parameter that may fail) only when the partition has at least
two samples, otherwise return the degenerate fit without calling it. -/
def fitPartition (lin : List ℚ → List ℚ → Except String ADEFit)
    (angles times : List ℚ) : Except String ADEFit :=
  if 2 ≤ angles.length then lin angles times else .ok degenerateFit

/-- Python truthiness of the `is_correct` field (`None` is falsy). -/
def isCorrectTruthy (r : TrialResult) : Bool := r.is_correct.getD false

/-- Model of `analyze_ade` of `analyze_ade.py`: split by correctness, fit each
partition; returns the (correct, incorrect) fits. -/
def analyze_ade_fits (lin : List ℚ → List ℚ → Except String ADEFit)
    (results : List TrialResult) : Except String ADEFit × Except String ADEFit :=
  let correct_results := results.filter (fun r => isCorrectTruthy r)
  let incorrect_results := results.filter (fun r => ! isCorrectTruthy r)
  (fitPartition lin (correct_results.map (fun r => r.initial_angle))
      (correct_results.map (fun r => r.response_time)),
   fitPartition lin (incorrect_results.map (fun r => r.initial_angle))
      (incorrect_results.map (fun r => r.response_time)))

/-- Model of `make_plot` inside `analyze_ade_automatically`: the same correct/incorrect
split and per-partition fit, over one rotation group. -/
def make_plot_fits (lin : List ℚ → List ℚ → Except String ADEFit)
    (data : List TrialResult) : Except String ADEFit × Except String ADEFit :=
  let correct := data.filter (fun r => isCorrectTruthy r)
  let incorrect := data.filter (fun r => ! isCorrectTruthy r)
  (fitPartition lin (correct.map (fun r => r.initial_angle))
      (correct.map (fun r => r.response_time)),
   fitPartition lin (incorrect.map (fun r => r.initial_angle))
      (incorrect.map (fun r => r.response_time)))

/-- Model of `analyze_ade_automatically`: split by `rotation_enabled`, then run
`make_plot` on each group; returns the (rotation, no-rotation) fit pairs. -/
def analyze_ade_automatically_fits (lin : List ℚ → List ℚ → Except String ADEFit)
    (results : List TrialResult) :
    (Except String ADEFit × Except String ADEFit) ×
    (Except String ADEFit × Except String ADEFit) :=
  let rotables := results.filter (fun r => r.rotation_enabled)
  let non_rotables := results.filter (fun r => ! r.rotation_enabled)
  (make_plot_fits lin rotables, make_plot_fits lin non_rotables)

/-! ## Helper lemmas -/

lemma assignConditions_length (n : Nat) : ∀ (i : Nat) (l : List Stimulus),
    (assignConditions n i l).length = l.length
  | _, [] => rfl
  | i, _ :: rest => by
      simp [assignConditions, assignConditions_length n (i + 1) rest]

lemma assignConditions_getD_rot (n : Nat) : ∀ (l : List Stimulus) (i j : Nat),
    j < l.length →
    (((assignConditions n i l).getD j dfltTrial).rotation_enabled = true ↔ i + j < n)
  | [], _, _, h => absurd h (by simp)
  | s :: rest, i, 0, _ => by
      simp [assignConditions]
  | s :: rest, i, j + 1, h => by
      have hrec := assignConditions_getD_rot n rest (i + 1) j (by simpa using h)
      simpa [assignConditions, Nat.add_assoc, Nat.add_comm 1 j] using hrec

lemma assignConditions_map_stimulus (n : Nat) : ∀ (i : Nat) (l : List Stimulus),
    (assignConditions n i l).map Trial.stimulus = l
  | _, [] => rfl
  | i, s :: rest => by
      simp [assignConditions, assignConditions_map_stimulus n (i + 1) rest]

lemma mem_assignConditions_mirror (n : Nat) : ∀ (l : List Stimulus) (i : Nat) (t : Trial),
    t ∈ assignConditions n i l → t.is_mirror = mirrorGetDfalse t.stimulus.mirror
  | [], _, _, h => absurd h (by simp [assignConditions])
  | s :: rest, i, t, h => by
      rcases (by simpa [assignConditions] using h :
          t = { stimulus := s, rotation_enabled := decide (i < n),
                is_mirror := mirrorGetDfalse s.mirror } ∨ t ∈ assignConditions n (i + 1) rest)
        with h1 | h1
      · subst h1; rfl
      · exact mem_assignConditions_mirror n rest (i + 1) t h1

lemma labelStimulus_length : ∀ (c : List Stimulus) (k : Nat) (b : Bool),
    (labelStimulus c k b).length = c.length
  | [], _, _ => rfl
  | _ :: rest, 0, b => by simp [labelStimulus]
  | _ :: rest, k + 1, b => by simp [labelStimulus, labelStimulus_length rest k b]

lemma labelStimulus_getD_self : ∀ (c : List Stimulus) (k : Nat) (b : Bool), k < c.length →
    (labelStimulus c k b).getD k dfltStim = { c.getD k dfltStim with mirror := .val b }
  | [], k, _, h => absurd h (by simp)
  | s :: rest, 0, b, _ => by simp [labelStimulus]
  | s :: rest, k + 1, b, h => by
      simpa [labelStimulus] using labelStimulus_getD_self rest k b (by simpa using h)

lemma labelStimulus_getD_other : ∀ (c : List Stimulus) (k j : Nat) (b : Bool), j ≠ k →
    (labelStimulus c k b).getD j dfltStim = c.getD j dfltStim
  | [], _, _, _, _ => rfl
  | s :: rest, 0, 0, b, hj => absurd rfl hj
  | s :: rest, 0, j + 1, b, _ => by simp [labelStimulus]
  | s :: rest, k + 1, 0, b, _ => by simp [labelStimulus]
  | s :: rest, k + 1, j + 1, b, hj => by
      simpa [labelStimulus] using
        labelStimulus_getD_other rest k j b (fun h => hj (by simpa using h))

lemma setRecord_getD_label : ∀ (c : List Stimulus) (k : Nat) (b : Bool), k < c.length →
    setRecord c k ((labelStimulus c k b).getD k dfltStim) = labelStimulus c k b
  | [], k, _, h => absurd h (by simp)
  | s :: rest, 0, b, _ => by simp [labelStimulus, setRecord]
  | s :: rest, k + 1, b, h => by
      simpa [labelStimulus, setRecord] using setRecord_getD_label rest k b (by simpa using h)

lemma labelAndSave_disk (c : List Stimulus) (k : Nat) (b : Bool) (hk : k < c.length) :
    (labelAndSave c c k b).2 = labelStimulus c k b := by
  simpa [labelAndSave, save_stimulus_to_json] using setRecord_getD_label c k b hk

lemma writeRecordLines_length (e : Stimulus → String) : ∀ l : List Stimulus,
    (writeRecordLines e l).length = l.length
  | [] => rfl
  | [_] => rfl
  | s :: s' :: rest => by
      simp [writeRecordLines, writeRecordLines_length e (s' :: rest)]

lemma writeRecordLines_getD_comma (e : Stimulus → String) : ∀ (l : List Stimulus) (i : Nat),
    i + 1 < l.length →
    (writeRecordLines e l).getD i "" = e (l.getD i dfltStim) ++ ","
  | [], _, h => absurd h (by simp)
  | [_], i, h => absurd h (by simp)
  | s :: s' :: rest, 0, _ => by simp [writeRecordLines]
  | s :: s' :: rest, i + 1, h => by
      simpa [writeRecordLines] using
        writeRecordLines_getD_comma e (s' :: rest) i (by simpa using h)

lemma writeRecordLines_getD_final (e : Stimulus → String) : ∀ (l : List Stimulus) (i : Nat),
    i + 1 = l.length →
    (writeRecordLines e l).getD i "" = e (l.getD i dfltStim)
  | [], _, h => by simp at h
  | [_], 0, _ => by simp [writeRecordLines]
  | [_], i + 1, h => by simp at h
  | s :: s' :: rest, 0, h => by simp at h
  | s :: s' :: rest, i + 1, h => by
      simpa [writeRecordLines] using
        writeRecordLines_getD_final e (s' :: rest) i (by simpa using h)

lemma respondEvent_results (trials : List Trial) (now : ℚ) (s : ExpState) (d : Bool) :
    (respondEvent trials now s d).results
      = s.results ++ [respondResult trials now s d] := by
  unfold respondEvent
  split <;> rfl

lemma respondEvent_currentTrial (trials : List Trial) (now : ℚ) (s : ExpState) (d : Bool) :
    (respondEvent trials now s d).currentTrial = s.currentTrial + 1 := by
  unfold respondEvent
  split <;> rfl

lemma fitPartition_short (lin : List ℚ → List ℚ → Except String ADEFit)
    (angles times : List ℚ) (h : angles.length < 2) :
    fitPartition lin angles times = Except.ok degenerateFit := by
  rw [fitPartition, if_neg (by omega)]

/-! ## Concrete fixtures used by witnesses and counterexamples -/

/-- A stimulus already labeled as a mirror pair. -/
def wStim : Stimulus := { dfltStim with id := "w", mirror := .val true }

/-- A rotation-enabled trial over `wStim`. -/
def wTrial : Trial := { stimulus := wStim, rotation_enabled := true, is_mirror := some true }

/-- A stimulus whose `is_mirror` key is present with value `null`. -/
def nullStim : Stimulus := { dfltStim with id := "n", mirror := .null }

/-- The trial the fallback path builds from `nullStim`. -/
def wNullTrial : Trial := { stimulus := nullStim, rotation_enabled := true, is_mirror := none }

/-- An unlabeled stimulus named s1. -/
def cexS1 : Stimulus := { dfltStim with id := "s1" }

/-- An unlabeled stimulus named s2. -/
def cexS2 : Stimulus := { dfltStim with id := "s2" }

/-- A labeled non-mirror stimulus. -/
def wStimF : Stimulus := { dfltStim with id := "f", mirror := .val false }

/-- A rotation-disabled trial over `wStimF`. -/
def wTrial2 : Trial := { stimulus := wStimF, rotation_enabled := false, is_mirror := some false }

/-- A session state mid-trial 0 with a nonzero accumulated rotation. -/
def cexState : ExpState :=
  { currentTrial := 0, results := [], rotX := 1, rotY := 0, dragging := false,
    lastMousePos := none, startTime := 0, running := true }

/-- A session state at trial 0 with an active drag anchored at the origin. -/
def wDragState : ExpState :=
  { initState 0 with dragging := true, lastMousePos := some ((0 : ℤ), (0 : ℤ)) }

/-! ## Claim theorems -/

/-- C1: for every trial whose frozen `is_mirror` is the boolean `b`, an
accepted "same" response (`K_s`) records `is_correct = !b` and an accepted
"different" response (`K_d`) records `is_correct = b`; instantiating `b`
gives all four combinations of the correctness rule. -/
theorem recorded_correctness (trials : List Trial) (now : ℚ) (s : ExpState) (b : Bool)
    (hm : (trials.getD s.currentTrial dfltTrial).is_mirror = some b) :
    (∃ r, (handleEvent trials now s GEvent.keyS).results = s.results ++ [r] ∧
       r.user_response = false ∧ r.is_correct = some (! b)) ∧
    (∃ r, (handleEvent trials now s GEvent.keyD).results = s.results ++ [r] ∧
       r.user_response = true ∧ r.is_correct = some b) := by
  refine ⟨⟨respondResult trials now s false, respondEvent_results trials now s false, rfl, ?_⟩,
         ⟨respondResult trials now s true, respondEvent_results trials now s true, rfl, ?_⟩⟩
  · simp only [respondResult, hm]; simp
  · simp only [respondResult, hm]; simp

/-- C1 witness: a mirrored trial answered "same" at the initial state. -/
theorem recorded_correctness_witness :
    ([wTrial].getD (initState 0).currentTrial dfltTrial).is_mirror = some true ∧
    (∃ r, (handleEvent [wTrial] 5 (initState 0) GEvent.keyS).results
        = (initState 0).results ++ [r] ∧
       r.user_response = false ∧ r.is_correct = some (! true)) :=
  ⟨rfl, (recorded_correctness [wTrial] 5 (initState 0) true rfl).1⟩

/-- C2: every partition holding fewer than two samples gets the degenerate
fit (slope 0, intercept 0, r 0, p 1) without the external regression ever
being called — whatever that regression would do — both for the
correct/incorrect partitions of `analyze_ade` and for the rotation-crossed
partitions of `analyze_ade_automatically`. -/
theorem ade_degenerate_fit (lin : List ℚ → List ℚ → Except String ADEFit)
    (results : List TrialResult) :
    ((results.filter (fun r => isCorrectTruthy r)).length < 2 →
       (analyze_ade_fits lin results).1 = Except.ok degenerateFit) ∧
    ((results.filter (fun r => ! isCorrectTruthy r)).length < 2 →
       (analyze_ade_fits lin results).2 = Except.ok degenerateFit) ∧
    (((results.filter (fun r => r.rotation_enabled)).filter
        (fun r => isCorrectTruthy r)).length < 2 →
       (analyze_ade_automatically_fits lin results).1.1 = Except.ok degenerateFit) ∧
    (((results.filter (fun r => r.rotation_enabled)).filter
        (fun r => ! isCorrectTruthy r)).length < 2 →
       (analyze_ade_automatically_fits lin results).1.2 = Except.ok degenerateFit) ∧
    (((results.filter (fun r => ! r.rotation_enabled)).filter
        (fun r => isCorrectTruthy r)).length < 2 →
       (analyze_ade_automatically_fits lin results).2.1 = Except.ok degenerateFit) ∧
    (((results.filter (fun r => ! r.rotation_enabled)).filter
        (fun r => ! isCorrectTruthy r)).length < 2 →
       (analyze_ade_automatically_fits lin results).2.2 = Except.ok degenerateFit) := by
  refine ⟨fun h => ?_, fun h => ?_, fun h => ?_, fun h => ?_, fun h => ?_, fun h => ?_⟩ <;>
    · simp only [analyze_ade_fits, analyze_ade_automatically_fits, make_plot_fits]
      exact fitPartition_short lin _ _ (by simpa using h)

/-- C2 witness: the empty result list leaves every partition below two
samples, and the degenerate fit is returned even when the external
regression would fail. -/
theorem ade_degenerate_fit_witness :
    (([] : List TrialResult).filter (fun r => isCorrectTruthy r)).length < 2 ∧
    (analyze_ade_fits (fun _ _ => Except.error "scipy") []).1
      = Except.ok degenerateFit :=
  ⟨by decide, (ade_degenerate_fit (fun _ _ => Except.error "scipy") []).1 (by decide)⟩

/-- C5: the disparity computation returns the Euclidean norm
`sqrt(rot_x^2 + rot_y^2)` of the two user-rotation accumulators; it is
always nonnegative, vanishes exactly when both accumulators are zero, and
ignores its initial-angle argument. -/
theorem calculate_angular_disparity_spec (a a' x y : ℝ) :
    calculate_angular_disparity a x y = Real.sqrt (x ^ 2 + y ^ 2) ∧
    0 ≤ calculate_angular_disparity a x y ∧
    (calculate_angular_disparity a x y = 0 ↔ x = 0 ∧ y = 0) ∧
    calculate_angular_disparity a x y = calculate_angular_disparity a' x y := by
  have hsq : x * x + y * y = x ^ 2 + y ^ 2 := by ring
  refine ⟨by rw [calculate_angular_disparity, hsq], Real.sqrt_nonneg _, ?_, rfl⟩
  rw [calculate_angular_disparity,
    Real.sqrt_eq_zero (by nlinarith [mul_self_nonneg x, mul_self_nonneg y])]
  constructor
  · intro h
    constructor <;> nlinarith [mul_self_nonneg x, mul_self_nonneg y]
  · rintro ⟨hx, hy⟩
    rw [hx, hy]; ring

/-- C9 counterexample: the experiment loader `load_stimuli` returns an empty
parsed list successfully instead of failing with `EmptyDataError`. -/
theorem load_stimuli_empty_no_error :
    load_stimuli (FileState.parsed []) = Except.ok [] ∧
    ∀ e : LoadError, load_stimuli (FileState.parsed []) ≠ Except.error e := by
  refine ⟨rfl, fun e h => ?_⟩
  simp [load_stimuli] at h

/-- C9 amended: `load_all_stimuli` (the labeling tool) fails with
`NotFoundError` on a missing path, `ParseError` on malformed content and
`EmptyDataError` on an empty list, while `load_stimuli` (the experiment)
fails only on the first two and returns any parsed list — including the
empty one — without raising. -/
theorem load_error_taxonomy :
    load_all_stimuli FileState.missing = Except.error LoadError.notFound ∧
    load_all_stimuli FileState.malformed = Except.error LoadError.parseError ∧
    load_all_stimuli (FileState.parsed []) = Except.error LoadError.emptyData ∧
    (∀ d : List Stimulus, d ≠ [] → load_all_stimuli (FileState.parsed d) = Except.ok d) ∧
    load_stimuli FileState.missing = Except.error LoadError.notFound ∧
    load_stimuli FileState.malformed = Except.error LoadError.parseError ∧
    ∀ d : List Stimulus, load_stimuli (FileState.parsed d) = Except.ok d := by
  refine ⟨rfl, rfl, rfl, fun d hd => ?_, rfl, rfl, fun d => rfl⟩
  simp [load_all_stimuli, List.isEmpty_iff, hd]

/-- C9 amended witness: a singleton collection loads successfully through the
labeling tool loader. -/
theorem load_error_taxonomy_witness :
    [dfltStim] ≠ ([] : List Stimulus) ∧
    load_all_stimuli (FileState.parsed [dfltStim]) = Except.ok [dfltStim] :=
  ⟨by decide, load_error_taxonomy.2.2.2.1 [dfltStim] (by decide)⟩

/-- C3: when at least `n_rotation + n_no_rotation` stimuli carry a non-null
mirror label, the plan has exactly that many trials, with
`rotation_enabled = true` exactly on indices below `n_rotation`; and for
every input collection the plan length is the minimum of the requested total
and the collection size.  The uniform random shuffle is abstracted as any
length-preserving list function. -/
theorem generate_trial_set_spec (shuffle : List Stimulus → List Stimulus)
    (hs : ∀ l, (shuffle l).length = l.length)
    (stimuli : List Stimulus) (nR nN : Nat)
    (hvalid : nR + nN ≤ (stimuli.filter (fun s => (mirrorGet s.mirror).isSome)).length) :
    (generate_trial_set shuffle stimuli nR nN).length = nR + nN ∧
    (∀ j, j < (generate_trial_set shuffle stimuli nR nN).length →
       (((generate_trial_set shuffle stimuli nR nN).getD j dfltTrial).rotation_enabled = true
         ↔ j < nR)) ∧
    (∀ st : List Stimulus,
       (generate_trial_set shuffle st nR nN).length = min (nR + nN) st.length) := by
  have hlen : ∀ st : List Stimulus,
      (generate_trial_set shuffle st nR nN).length = min (nR + nN) st.length := by
    intro st
    by_cases h : (st.filter (fun s => (mirrorGet s.mirror).isSome)).length < nR + nN
    · simp only [generate_trial_set, if_pos h, assignConditions_length,
        List.length_take, hs]
      omega
    · have hf := List.length_filter_le (fun s => (mirrorGet s.mirror).isSome) st
      simp only [generate_trial_set, if_neg h, assignConditions_length,
        List.length_take, hs]
      omega
  refine ⟨?_, ?_, hlen⟩
  · have hf := List.length_filter_le (fun s => (mirrorGet s.mirror).isSome) stimuli
    rw [hlen stimuli]
    omega
  · intro j hj
    simp only [generate_trial_set, assignConditions_length] at hj
    simpa [generate_trial_set] using
      assignConditions_getD_rot nR _ 0 j hj

/-- C3 witness: two labeled stimuli, one rotation trial and one
no-rotation trial, with the identity permutation as the shuffle. -/
theorem generate_trial_set_spec_witness :
    (∀ l : List Stimulus, (id l).length = l.length) ∧
    1 + 1 ≤ ([wStim, wStimF].filter (fun s => (mirrorGet s.mirror).isSome)).length ∧
    (generate_trial_set id [wStim, wStimF] 1 1).length = 1 + 1 :=
  ⟨fun _ => rfl, by decide,
    (generate_trial_set_spec id (fun _ => rfl) [wStim, wStimF] 1 1 (by decide)).1⟩

/-- C4 counterexample: with two unlabeled stimuli and a requested total of
two, the fallback pool is the first two original stimuli, but the code then
shuffles it like the normal path; under the reversing permutation — one
possible outcome of the uniform shuffle — the plan is not in original
order. -/
theorem fallback_not_original_order :
    (([cexS1, cexS2].filter (fun s => (mirrorGet s.mirror).isSome)).length < 1 + 1) ∧
    (generate_trial_set List.reverse [cexS1, cexS2] 1 1).map Trial.stimulus
      ≠ [cexS1, cexS2] := by
  decide

/-- C4 amended: under the insufficiency fallback the plan is built from the
first `n_rotation + n_no_rotation` stimuli of the original unfiltered
collection, but in the order produced by the shuffle — a permutation of
those stimuli, not necessarily their original order. -/
theorem fallback_first_unfiltered_shuffled (shuffle : List Stimulus → List Stimulus)
    (hs : ∀ l : List Stimulus, (shuffle l).Perm l)
    (stimuli : List Stimulus) (nR nN : Nat)
    (hins : (stimuli.filter (fun s => (mirrorGet s.mirror).isSome)).length < nR + nN) :
    (generate_trial_set shuffle stimuli nR nN).map Trial.stimulus
        = shuffle (stimuli.take (nR + nN)) ∧
    ((generate_trial_set shuffle stimuli nR nN).map Trial.stimulus).Perm
        (stimuli.take (nR + nN)) := by
  have hlen : (shuffle (stimuli.take (nR + nN))).length ≤ nR + nN := by
    rw [(hs _).length_eq]
    exact List.length_take_le (nR + nN) stimuli
  have htake : (shuffle (stimuli.take (nR + nN))).take (nR + nN)
      = shuffle (stimuli.take (nR + nN)) := List.take_of_length_le hlen
  have hmap : (generate_trial_set shuffle stimuli nR nN).map Trial.stimulus
      = shuffle (stimuli.take (nR + nN)) := by
    simp only [generate_trial_set, if_pos hins, htake, assignConditions_map_stimulus]
  exact ⟨hmap, hmap ▸ hs _⟩

/-- C4 amended witness: the reversing permutation on two unlabeled stimuli. -/
theorem fallback_first_unfiltered_shuffled_witness :
    (([cexS1, cexS2].filter (fun s => (mirrorGet s.mirror).isSome)).length < 1 + 1) ∧
    (generate_trial_set List.reverse [cexS1, cexS2] 1 1).map Trial.stimulus
      = List.reverse ([cexS1, cexS2].take (1 + 1)) :=
  ⟨by decide,
    (fallback_first_unfiltered_shuffled List.reverse (fun l => l.reverse_perm)
      [cexS1, cexS2] 1 1 (by decide)).1⟩

/-- C6 counterexample: the terminal transition out of the last
`Presenting` state advances the trial counter but does not zero the
rotation accumulators — the code breaks out of the loop before the reset
lines run — so the accumulators are not zeroed on *every* transition out of
`Presenting(i)`. -/
theorem terminal_transition_no_reset :
    (handleEvent [wTrial] 0 cexState GEvent.keyS).currentTrial
      ≠ cexState.currentTrial ∧
    [wTrial].length ≤ (handleEvent [wTrial] 0 cexState GEvent.keyS).currentTrial ∧
    (handleEvent [wTrial] 0 cexState GEvent.keyS).rotX ≠ 0 := by
  refine ⟨?_, ?_, ?_⟩ <;>
    norm_num [handleEvent, respondEvent, cexState]

/-- C6 amended: both accumulators are zero at session start; and on every
transition that advances to a further trial still inside the plan, the
completed trial result — whose disparity is computed from the pre-reset
accumulators — is appended and both accumulators are then zeroed before any
further input.  (On the terminal transition to Completed the result is
appended but the accumulators are left untouched; no further trial observes
them.) -/
theorem rotation_reset_on_advance (t0 now : ℚ) (trials : List Trial) (s : ExpState)
    (e : GEvent)
    (h : (handleEvent trials now s e).currentTrial ≠ s.currentTrial)
    (hrun : (handleEvent trials now s e).currentTrial < trials.length) :
    ((initState t0).rotX = 0 ∧ (initState t0).rotY = 0) ∧
    (∃ r, (handleEvent trials now s e).results = s.results ++ [r] ∧
       r.disparity = calculate_angular_disparity
         ((stimRotY (trials.getD s.currentTrial dfltTrial).stimulus : ℚ) : ℝ)
         ((s.rotX : ℚ) : ℝ) ((s.rotY : ℚ) : ℝ)) ∧
    (handleEvent trials now s e).rotX = 0 ∧ (handleEvent trials now s e).rotY = 0 := by
  cases e with
  | quit => exact absurd rfl h
  | keyEscape => exact absurd rfl h
  | keyS =>
      have hrun' : s.currentTrial + 1 < trials.length := by
        simpa [handleEvent, respondEvent_currentTrial] using hrun
      have hlt : ¬ trials.length ≤ s.currentTrial + 1 := by omega
      refine ⟨⟨rfl, rfl⟩,
        ⟨respondResult trials now s false, respondEvent_results trials now s false, rfl⟩, ?_⟩
      show (respondEvent trials now s false).rotX = 0 ∧
        (respondEvent trials now s false).rotY = 0
      unfold respondEvent
      rw [if_neg hlt]
      exact ⟨rfl, rfl⟩
  | keyD =>
      have hrun' : s.currentTrial + 1 < trials.length := by
        simpa [handleEvent, respondEvent_currentTrial] using hrun
      have hlt : ¬ trials.length ≤ s.currentTrial + 1 := by omega
      refine ⟨⟨rfl, rfl⟩,
        ⟨respondResult trials now s true, respondEvent_results trials now s true, rfl⟩, ?_⟩
      show (respondEvent trials now s true).rotX = 0 ∧
        (respondEvent trials now s true).rotY = 0
      unfold respondEvent
      rw [if_neg hlt]
      exact ⟨rfl, rfl⟩
  | mouseDown button pos =>
      exfalso; apply h
      simp only [handleEvent]
      split <;> rfl
  | mouseUp button =>
      exfalso; apply h
      simp only [handleEvent]
      split <;> rfl
  | mouseMotion pos =>
      exfalso; apply h
      simp only [handleEvent]
      split
      · cases s.lastMousePos <;> rfl
      · rfl

/-- C6 amended witness: answering "same" on the first of two trials. -/
theorem rotation_reset_on_advance_witness :
    (handleEvent [wTrial, wTrial2] 3 cexState GEvent.keyS).currentTrial
      ≠ cexState.currentTrial ∧
    (handleEvent [wTrial, wTrial2] 3 cexState GEvent.keyS).currentTrial
      < [wTrial, wTrial2].length ∧
    ((handleEvent [wTrial, wTrial2] 3 cexState GEvent.keyS).rotX = 0 ∧
     (handleEvent [wTrial, wTrial2] 3 cexState GEvent.keyS).rotY = 0) := by
  have h1 : (handleEvent [wTrial, wTrial2] 3 cexState GEvent.keyS).currentTrial
      ≠ cexState.currentTrial := by
    simp [handleEvent, respondEvent_currentTrial, cexState]
  have h2 : (handleEvent [wTrial, wTrial2] 3 cexState GEvent.keyS).currentTrial
      < [wTrial, wTrial2].length := by
    simp [handleEvent, respondEvent_currentTrial, cexState]
  exact ⟨h1, h2,
    (rotation_reset_on_advance 0 3 [wTrial, wTrial2] cexState GEvent.keyS h1 h2).2.2⟩

/-- Case analysis for a pointer-move event: either the drag condition fails
(no change), or the drag anchor is unset (no change; unreachable while
dragging), or the accumulators are updated from the pointer deltas. -/
lemma motion_cases (trials : List Trial) (now : ℚ) (s : ExpState) (pos : Int × Int) :
    (¬ (s.dragging = true ∧
        (trials.getD s.currentTrial dfltTrial).rotation_enabled = true) ∧
      handleEvent trials now s (GEvent.mouseMotion pos) = s) ∨
    (s.lastMousePos = none ∧
      handleEvent trials now s (GEvent.mouseMotion pos) = s) ∨
    ((s.dragging = true ∧
        (trials.getD s.currentTrial dfltTrial).rotation_enabled = true) ∧
      ∃ lp, s.lastMousePos = some lp ∧
        handleEvent trials now s (GEvent.mouseMotion pos)
          = { s with rotY := s.rotY + ((pos.1 - lp.1 : ℤ) : ℚ) * (1 / 2),
                     rotX := s.rotX + ((pos.2 - lp.2 : ℤ) : ℚ) * (1 / 2),
                     lastMousePos := some pos }) := by
  by_cases hc : s.dragging = true ∧
      (trials.getD s.currentTrial dfltTrial).rotation_enabled = true
  · cases hlp : s.lastMousePos with
    | none =>
        refine .inr (.inl ⟨rfl, ?_⟩)
        simp only [handleEvent, if_pos hc]
        rw [hlp]
    | some lp =>
        refine .inr (.inr ⟨hc, lp, rfl, ?_⟩)
        simp only [handleEvent, if_pos hc]
        rw [hlp]
  · refine .inl ⟨hc, ?_⟩
    simp only [handleEvent, if_neg hc]

/-- C7: a pointer-move event never changes the trial index, the result log,
the running flag, the drag flag or the trial clock; if the current trial has
rotation disabled, or no drag is active, the state is entirely unchanged;
and during an active drag on a rotation-enabled trial it adds `dx * 0.5` to
`rot_y` and `dy * 0.5` to `rot_x`. -/
theorem mouse_motion_effect (trials : List Trial) (now : ℚ) (s : ExpState)
    (pos : Int × Int) :
    (handleEvent trials now s (GEvent.mouseMotion pos)).currentTrial = s.currentTrial ∧
    (handleEvent trials now s (GEvent.mouseMotion pos)).results = s.results ∧
    (handleEvent trials now s (GEvent.mouseMotion pos)).running = s.running ∧
    (handleEvent trials now s (GEvent.mouseMotion pos)).dragging = s.dragging ∧
    (handleEvent trials now s (GEvent.mouseMotion pos)).startTime = s.startTime ∧
    ((trials.getD s.currentTrial dfltTrial).rotation_enabled = false →
       handleEvent trials now s (GEvent.mouseMotion pos) = s) ∧
    (s.dragging = false → handleEvent trials now s (GEvent.mouseMotion pos) = s) ∧
    (∀ lp, s.dragging = true →
       (trials.getD s.currentTrial dfltTrial).rotation_enabled = true →
       s.lastMousePos = some lp →
       (handleEvent trials now s (GEvent.mouseMotion pos)).rotY
           = s.rotY + ((pos.1 - lp.1 : ℤ) : ℚ) * (1 / 2) ∧
       (handleEvent trials now s (GEvent.mouseMotion pos)).rotX
           = s.rotX + ((pos.2 - lp.2 : ℤ) : ℚ) * (1 / 2)) := by
  rcases motion_cases trials now s pos with ⟨hc, heq⟩ | ⟨hlp, heq⟩ | ⟨hc, lp0, hlp, heq⟩
  · rw [heq]
    refine ⟨rfl, rfl, rfl, rfl, rfl, fun _ => rfl, fun _ => rfl, fun lp h1 h2 _ => ?_⟩
    exact absurd ⟨h1, h2⟩ hc
  · rw [heq]
    refine ⟨rfl, rfl, rfl, rfl, rfl, fun _ => rfl, fun _ => rfl, fun lp _ _ h3 => ?_⟩
    rw [hlp] at h3
    exact Option.noConfusion h3
  · rw [heq]
    refine ⟨rfl, rfl, rfl, rfl, rfl, fun hr => ?_, fun hd => ?_, fun lp _ _ h3 => ?_⟩
    · rw [hc.2] at hr
      exact Bool.noConfusion hr
    · rw [hc.1] at hd
      exact Bool.noConfusion hd
    · rw [hlp] at h3
      cases h3
      exact ⟨rfl, rfl⟩

/-- C7 witness: a 4-pixel horizontal, 2-pixel vertical drag step on a
rotation-enabled trial adds 2 degrees to `rot_y`. -/
theorem mouse_motion_effect_witness :
    wDragState.dragging = true ∧
    ([wTrial].getD wDragState.currentTrial dfltTrial).rotation_enabled = true ∧
    wDragState.lastMousePos = some ((0 : ℤ), (0 : ℤ)) ∧
    (handleEvent [wTrial] 0 wDragState (GEvent.mouseMotion ((4 : ℤ), (2 : ℤ)))).rotY
      = 2 := by
  refine ⟨rfl, rfl, rfl, ?_⟩
  have h := ((mouse_motion_effect [wTrial] 0 wDragState ((4 : ℤ), (2 : ℤ))).2.2.2.2.2.2.2
      ((0 : ℤ), (0 : ℤ)) rfl rfl rfl).1
  rw [h]
  norm_num [wDragState, initState]

/-- C8: labeling the record at index `k` and reloading the persisted
collection yields a collection of the same length whose record at `k` is the
old record with `is_mirror` set to the new value, and whose records at every
other index are identical to before; the write is a full rewrite of the
whole collection, one compact record per line between bracket lines. -/
theorem label_roundtrip (c : List Stimulus) (k : Nat) (b : Bool)
    (encode : Stimulus → String) (hk : k < c.length) :
    ((labelAndSave c c k b).2).length = c.length ∧
    (((labelAndSave c c k b).2).getD k dfltStim).mirror = MirrorField.val b ∧
    ((labelAndSave c c k b).2).getD k dfltStim
      = { c.getD k dfltStim with mirror := MirrorField.val b } ∧
    (∀ j, j ≠ k → ((labelAndSave c c k b).2).getD j dfltStim = c.getD j dfltStim) ∧
    (writeCollectionLines encode ((labelAndSave c c k b).2)).length = c.length + 2 ∧
    (writeCollectionLines encode ((labelAndSave c c k b).2)).getD 0 "" = "[" ∧
    (∀ i, i + 1 < c.length →
       (writeCollectionLines encode ((labelAndSave c c k b).2)).getD (i + 1) ""
         = encode (((labelAndSave c c k b).2).getD i dfltStim) ++ ",") ∧
    (c.length ≠ 0 →
       (writeCollectionLines encode ((labelAndSave c c k b).2)).getD c.length ""
         = encode (((labelAndSave c c k b).2).getD (c.length - 1) dfltStim)) := by
  have hd : (labelAndSave c c k b).2 = labelStimulus c k b := labelAndSave_disk c k b hk
  have hl : (labelStimulus c k b).length = c.length := labelStimulus_length c k b
  refine ⟨by rw [hd, hl], ?_, ?_, ?_, ?_, rfl, ?_, ?_⟩
  · rw [hd, labelStimulus_getD_self c k b hk]
  · rw [hd, labelStimulus_getD_self c k b hk]
  · intro j hj
    rw [hd, labelStimulus_getD_other c k j b hj]
  · rw [hd]
    simp [writeCollectionLines, writeRecordLines_length, hl]
  · intro i hi
    rw [hd]
    have hi' : i < (writeRecordLines encode (labelStimulus c k b)).length := by
      rw [writeRecordLines_length, hl]; omega
    rw [writeCollectionLines, List.getD_cons_succ, List.getD_append _ _ _ _ hi',
      writeRecordLines_getD_comma encode _ i (by rw [hl]; omega)]
  · intro hne
    rw [hd]
    obtain ⟨n, hn⟩ : ∃ n, c.length = n + 1 := ⟨c.length - 1, by omega⟩
    have hlt : n < (writeRecordLines encode (labelStimulus c k b)).length := by
      rw [writeRecordLines_length, hl]; omega
    rw [hn]
    simp only [Nat.add_sub_cancel]
    rw [writeCollectionLines, List.getD_cons_succ, List.getD_append _ _ _ _ hlt,
      writeRecordLines_getD_final encode _ n (by rw [hl, hn])]

/-- C8 witness: labeling index 1 of a two-record collection. -/
theorem label_roundtrip_witness :
    1 < [cexS1, cexS2].length ∧
    (((labelAndSave [cexS1, cexS2] [cexS1, cexS2] 1 true).2).getD 1 dfltStim).mirror
      = MirrorField.val true :=
  ⟨by decide,
    (label_roundtrip [cexS1, cexS2] 1 true (fun s => s.id) (by decide)).2.1⟩

/-- C10: a trial built by `generate_trial_set` from a stimulus whose
`is_mirror` key is present with value `null` carries `is_mirror = None` —
not `False`, since the `False` default applies only to an absent key — and
an accepted "different" response on such a trial records a result whose
`is_correct` (and `is_mirror`) is `None` rather than a boolean. -/
theorem null_mirror_trial (shuffle : List Stimulus → List Stimulus)
    (stimuli : List Stimulus) (nR nN : Nat) (t : Trial)
    (ht : t ∈ generate_trial_set shuffle stimuli nR nN)
    (hnull : t.stimulus.mirror = MirrorField.null) :
    t.is_mirror = none ∧ t.is_mirror ≠ some false ∧
    (∀ (trials : List Trial) (now : ℚ) (s : ExpState),
       trials.getD s.currentTrial dfltTrial = t →
       ∃ r, (handleEvent trials now s GEvent.keyD).results = s.results ++ [r] ∧
         r.is_correct = none ∧ r.is_mirror = none) := by
  have hm : t.is_mirror = none := by
    simp only [generate_trial_set] at ht
    rw [mem_assignConditions_mirror nR _ 0 t ht, hnull]
    rfl
  refine ⟨hm, by simp [hm], fun trials now s hts => ?_⟩
  refine ⟨respondResult trials now s true, respondEvent_results trials now s true, ?_, ?_⟩
  · simp only [respondResult, hts, hm]
    simp
  · simp only [respondResult, hts, hm]

/-- C10 witness: a single null-labeled stimulus reaches the plan through the
fallback path and yields a null-mirrored trial. -/
theorem null_mirror_trial_witness :
    (wNullTrial ∈ generate_trial_set id [nullStim] 1 0) ∧
    wNullTrial.stimulus.mirror = MirrorField.null ∧
    wNullTrial.is_mirror = none :=
  ⟨by decide, by decide,
    (null_mirror_trial id [nullStim] 1 0 wNullTrial (by decide) (by decide)).1⟩

end MentalRotation
